import Mathlib

/-!
Shallow embedding of `src/client/HttpClient.ts`: the `WebFetch` request executor
and the `WebFetchHTTPClient` facade, together with theorems checking the spec
against the code. Runtime behaviour that lives outside the file (the network,
the JSON parser) is supplied as an explicit outcome oracle; JavaScript-specific
semantics (falsy defaults, `Object.entries` on a `URLSearchParams`) are encoded
as their own named definitions so they can be audited separately.
-/

namespace Postmark

/-- Subset of JavaScript values seen by this code: the parsed JSON body fields
(`data.data`, `data.ErrorCode`) and the request body. `undef` stands for a
missing property. -/
inductive JsVal where
  | undef
  | null
  | bool (b : Bool)
  | num (n : Int)
  | str (s : String)
  deriving DecidableEq, Repr

/-- Parsed JSON response body as the code reads it: it only ever accesses the
`data` and `ErrorCode` properties, each `undef` when absent. -/
structure JsonBody where
  data : JsVal
  ErrorCode : JsVal
  deriving DecidableEq, Repr

/-- The closed method set of `ClientOptions.HttpMethod`. -/
inductive HttpMethod where
  | GET | POST | PUT | PATCH | DELETE
  deriving DecidableEq, Repr

/-- WHATWG `Headers` modelled as its internal header list: name and value pairs
in insertion order. Header names compare case-insensitively in the platform;
this development only ever uses the single spelling `Content-Type`, so entries
are compared verbatim. -/
abbrev HeadersModel := List (String × String)

/-- `Headers.append(name, value)`: adds the pair at the end of the header list,
never removing or replacing an existing entry of the same name. -/
def headersAppend (h : HeadersModel) (name value : String) : HeadersModel :=
  h ++ [(name, value)]

/-- Number of entries of a header list carrying the given name. -/
def countHeader (h : HeadersModel) (name : String) : Nat :=
  (h.filter fun p => p.1 == name).length

/-- WHATWG `URL` restricted to the components this code touches: `origin`,
`pathname` and the parsed search list. -/
structure URLModel where
  origin : String
  pathname : String
  search : List (String × String)
  deriving DecidableEq, Repr

/-- Split a character list at every occurrence of the separator; the chunks
between separators are returned in order, empty chunks included. -/
def splitChars (sep : Char) : List Char → List (List Char)
  | [] => [[]]
  | c :: cs =>
    let rest := splitChars sep cs
    if c = sep then [] :: rest
    else (c :: rest.headD []) :: rest.tail

/-- Split a string at a single-character separator (structural counterpart of
`String.splitOn` for the separators used here, chosen so that the kernel can
evaluate it). -/
def splitOnChar (sep : Char) (s : String) : List String :=
  (splitChars sep s.data).map fun l => String.mk l

/-- Split one `key=value` fragment of a query string at its first equals
sign. -/
def parseQueryPair (s : String) : String × String :=
  match splitOnChar (Char.ofNat 61) s with
  | [] => (s, "")
  | [k] => (k, "")
  | k :: rest => (k, String.intercalate "=" rest)

/-- Parse a query string `a=1&b=2` into its pair list. -/
def parseQuery (s : String) : List (String × String) :=
  if s = "" then [] else (splitOnChar (Char.ofNat 38) s).map parseQueryPair

/-- Model of `new URL(path, baseURL)` on the subset exercised here: `baseURL`
is an origin (scheme and host, no path or query) and `path` is a relative path
that may carry a query string after the first question mark. -/
def newURL (path baseURL : String) : URLModel :=
  match splitOnChar (Char.ofNat 63) path with
  | [] => { origin := baseURL, pathname := path, search := [] }
  | [p] => { origin := baseURL, pathname := p, search := [] }
  | p :: rest => { origin := baseURL
                   pathname := p
                   search := parseQuery (String.intercalate "?" rest) }

/-- JavaScript `Object.entries` applied to a `URLSearchParams` instance. A
`URLSearchParams` keeps its pair list in an internal slot and exposes no own
enumerable string-keyed properties (its accessors live on the prototype), so
`Object.entries` returns the empty array whatever pairs are stored. The source
writes `Object.entries(url.searchParams)` rather than `url.searchParams.entries()`. -/
def objectEntriesOfSearchParams (_sp : List (String × String)) : List (String × String) :=
  []

/-- Serialize a pair list the way `URLSearchParams.toString` does (the inputs
used here need no percent-encoding). -/
def serializeQuery (q : List (String × String)) : String :=
  String.intercalate "&" (q.map fun p => p.1 ++ "=" ++ p.2)

/-- `WebFetch.addSearchParams`: rebuilds the URL from its origin and pathname
plus a question mark and the serialisation of `Object.entries(url.searchParams)`
followed by `Object.entries(params)`. -/
def addSearchParams (url : URLModel) (params : List (String × String)) : URLModel :=
  { origin := url.origin
    pathname := url.pathname
    search := objectEntriesOfSearchParams url.search ++ params }

/-- The `href` of a rebuilt URL: origin, pathname, question mark, query. -/
def URLModel.href (u : URLModel) : String :=
  u.origin ++ u.pathname ++ "?" ++ serializeQuery u.search

/-- Modelled from the spec: the `PostmarkError` class comes from `./errors`,
which is not among the sources. The spec gives the shape
`ApiError { message, errorCode?, httpStatus? }` with `errorCode` present only
when the call site passes a numeric code (the call sites pass either a number
or the JavaScript boolean `false`; both non-numbers appear as `none` here). -/
structure PostmarkError where
  message : String
  errorCode : Option Int := none
  httpStatus : Option Nat := none
  deriving DecidableEq, Repr

/-- The expression `typeof data.ErrorCode === "number" && data.ErrorCode`: the
numeric value when the field is a number, and the falsy `false` (modelled as
`none`) otherwise. -/
def jsNumericCodeArg : JsVal → Option Int
  | .num n => some n
  | _ => none

/-- The tagged union `Result<D, E>` of the source. -/
inductive Result (D : Type) (E : Type) where
  | success (data : D)
  | failure (error : E)
  deriving DecidableEq, Repr

/-- The `WebFetch` executor state: the three private readonly fields set by its
constructor. -/
structure WebFetch where
  baseURL : String
  timeout : Int
  validateStatus : Nat → Bool

/-- The argument record of `WebFetch.request`: url (the path), method, body
(`data`), headers and query params. -/
structure RequestSpec where
  url : String
  method : HttpMethod
  data : JsVal
  headers : HeadersModel
  params : List (String × String)

/-- Outcome oracle for `await response.json()`: the parse either raises or
yields a body. -/
inductive JsonOutcome where
  | throws (msg : String)
  | ok (body : JsonBody)
  deriving DecidableEq, Repr

/-- Outcome oracle for `await fetch(...)`: the promise either rejects (network
failure, or the abort fired by the timeout timer) or resolves with a status and
a body-parse outcome. -/
inductive FetchOutcome where
  | rejects (msg : String)
  | resolves (status : Nat) (json : JsonOutcome)
  deriving DecidableEq, Repr

/-- The record passed to `fetch`: the url string plus an init dictionary that
contains exactly `method`, `headers` and `signal` — there is no `body` field in
the source, which this structure mirrors by having none. -/
structure FetchArgs where
  url : String
  method : HttpMethod
  headers : HeadersModel
  signalAttached : Bool
  deriving DecidableEq, Repr

/-- The full request URL built on line 35: `addSearchParams(new URL(path,
this.baseURL), params)`. -/
def WebFetch.requestURL (c : WebFetch) (path : String) (params : List (String × String)) :
    URLModel :=
  addSearchParams (newURL path c.baseURL) params

/-- What `request` passes to `fetch`: the built href, the method, the headers
after the unconditional `Content-Type` append of line 32, and the abort
signal. The `data` field of the spec appears nowhere. -/
def WebFetch.fetchArgs (c : WebFetch) (spec : RequestSpec) : FetchArgs :=
  { url := (c.requestURL spec.url spec.params).href
    method := spec.method
    headers := headersAppend spec.headers "Content-Type" "application/json"
    signalAttached := true }

/-- The duration handed to `setTimeout(() => controller.abort(), this.timeout)`
on line 30: the stored timeout, already in milliseconds. -/
def WebFetch.timerDurationMs (c : WebFetch) : Int :=
  c.timeout

/-- The body of the `try` block of `request`: a rejected `fetch` or a failed
`response.json()` surfaces as a raised exception (`Except.error` carrying the
message); otherwise the status is validated and a `Result` is produced — a
failure with the fixed message, the numeric-only body code and the status when
validation rejects, a success carrying `data.data` when it accepts. -/
def WebFetch.tryBlock (c : WebFetch) (outcome : FetchOutcome) :
    Except String (Result JsVal PostmarkError) :=
  match outcome with
  | .rejects msg => .error msg
  | .resolves status json =>
    match json with
    | .throws msg => .error msg
    | .ok body =>
      if c.validateStatus status then
        .ok (.success body.data)
      else
        .ok (.failure { message := "Request failed"
                        errorCode := jsNumericCodeArg body.ErrorCode
                        httpStatus := some status })

/-- `WebFetch.request`: the try body together with its catch clause, which
converts any raised exception into a failure `Result` built from the exception
message alone. The spec argument feeds only the URL and header construction
visible through `fetchArgs`; the outcome oracle drives the rest. -/
def WebFetch.request (c : WebFetch) (spec : RequestSpec) (outcome : FetchOutcome) :
    Result JsVal PostmarkError :=
  match c.tryBlock outcome with
  | .error msg => .failure { message := msg }
  | .ok r => r

/-- Promise-level semantics of `request`: the try body may raise, and the
returned promise settles with `Except.ok` exactly when no exception escapes the
function. -/
def WebFetch.requestPromise (c : WebFetch) (spec : RequestSpec) (outcome : FetchOutcome) :
    Except String (Result JsVal PostmarkError) :=
  match c.tryBlock outcome with
  | .error msg => .ok (.failure { message := msg })
  | .ok r => .ok r

/-- Whether `clearTimeout(id)` has run by the time `request` returns. The only
`clearTimeout` in the function sits on line 41, directly after `await fetch`,
so it runs exactly when the fetch promise resolves; the catch clause contains
no `clearTimeout`. -/
def WebFetch.timerCleared : FetchOutcome → Bool
  | .rejects _ => false
  | .resolves _ _ => true

/-- Modelled from the spec: `ClientOptions.Configuration` comes from
`./models`, which is not among the sources. The documented construction options
are a base URL, an optional timeout in seconds and an optional status
predicate; optional fields are `Option`s so that spreading can distinguish a
supplied field from an absent one. -/
structure Configuration where
  baseURL : Option String := none
  timeout : Option Int := none
  validateStatus : Option (Nat → Bool) := none

/-- Modelled from the spec: `HttpClient.DefaultOptions` lives in `./models`,
not among the sources; the spec documents the defaults as the vendor base URL,
with the 60-second timeout default applied separately by
`getRequestTimeoutInMilliseconds`. -/
def DefaultOptions : Configuration :=
  { baseURL := some "https://api.postmarkapp.com" }

/-- The spread `{...HttpClient.DefaultOptions, ...configOptions}`: fields
present in the supplied options override the defaults field by field. -/
def mergeConfiguration (base : Configuration) (override : Option Configuration) :
    Configuration :=
  match override with
  | none => base
  | some c =>
    { baseURL := c.baseURL <|> base.baseURL
      timeout := c.timeout <|> base.timeout
      validateStatus := c.validateStatus <|> base.validateStatus }

/-- Modelled from the spec: `getBaseHttpRequestURL` is inherited from the
`HttpClient` base class in `./models`, not among the sources; per the spec the
executor is bound to the base URL resolved from the configuration. -/
def getBaseHttpRequestURL (opts : Configuration) : String :=
  opts.baseURL.getD "https://api.postmarkapp.com"

/-- JavaScript `x || d` on an optional number: `undefined` and `0` are falsy
and give the default. -/
def jsOrNum (x : Option Int) (d : Int) : Int :=
  match x with
  | none => d
  | some n => if n = 0 then d else n

/-- `getRequestTimeoutInMilliseconds`: `(this.clientOptions.timeout || 60) * 1000`. -/
def getRequestTimeoutInMilliseconds (opts : Configuration) : Int :=
  jsOrNum opts.timeout 60 * 1000

/-- The `WebFetchHTTPClient` facade state: the merged options and the current
executor instance. -/
structure WebFetchHTTPClient where
  clientOptions : Configuration
  client : WebFetch

/-- `initHttpClient`: merges the supplied options over the defaults and
replaces `this.client` with a freshly constructed `WebFetch`. The status
predicate handed to the executor is the literal function
`status => status >= 200 && status < 300` written at the construction site; no
field of the configuration is consulted for it. -/
def initHttpClient (configOptions : Option Configuration) (s : WebFetchHTTPClient) :
    WebFetchHTTPClient :=
  let merged := mergeConfiguration DefaultOptions configOptions
  { clientOptions := merged
    client :=
      { baseURL := getBaseHttpRequestURL merged
        timeout := getRequestTimeoutInMilliseconds merged
        validateStatus := fun status => 200 ≤ status && status < 300 } }

/-- `httpRequest`: builds the request record from method, path, query, body and
headers, forwards it to the executor, and unwraps the `Result` — the data on
success, the `PostmarkError` thrown (`Except.error`) on failure. -/
def WebFetchHTTPClient.httpRequest (s : WebFetchHTTPClient) (method : HttpMethod)
    (path : String) (queryParameters : List (String × String)) (body : JsVal)
    (requestHeaders : HeadersModel) (outcome : FetchOutcome) :
    Except PostmarkError JsVal :=
  match s.client.request
      { url := path, method := method, data := body
        headers := requestHeaders, params := queryParameters } outcome with
  | .success d => .ok d
  | .failure e => .error e

/-- An in-flight call pins the executor instance read from the facade at issue
time; its completion is a function of that instance and the spec alone. -/
structure InFlightCall where
  executor : WebFetch
  spec : RequestSpec

/-- Issuing a call captures the current executor. -/
def issueCall (s : WebFetchHTTPClient) (spec : RequestSpec) : InFlightCall :=
  { executor := s.client, spec := spec }

/-- Completing an in-flight call runs `request` on the captured executor. -/
def InFlightCall.complete (call : InFlightCall) (outcome : FetchOutcome) :
    Result JsVal PostmarkError :=
  call.executor.request call.spec outcome

/-- A concrete executor for evaluations: the shape `initHttpClient` builds,
with an example base URL. -/
def exampleClient : WebFetch :=
  { baseURL := "https://api.example.com"
    timeout := 60000
    validateStatus := fun status => 200 ≤ status && status < 300 }

/-- An arbitrary facade state to initialise from. -/
def blankState : WebFetchHTTPClient :=
  { clientOptions := {}
    client := { baseURL := "", timeout := 0, validateStatus := fun _ => false } }

/-- A facade state as produced by a plain `initHttpClient` call. -/
def freshState : WebFetchHTTPClient :=
  initHttpClient none blankState

/-- A configuration supplying a status predicate that rejects everything. -/
def rejectAll : Configuration :=
  { validateStatus := some fun _ => false }

/-- Whatever the path, `new URL(path, base)` keeps the base as origin on the
modelled subset. -/
lemma newURL_origin (path base : String) : (newURL path base).origin = base := by
  unfold newURL
  cases splitOnChar (Char.ofNat 63) path with
  | nil => rfl
  | cons p rest => cases rest <;> rfl

/-- C1: evaluation of the URL construction at the documented input — path
`/x?a=1` against the example base with explicit query `{b: 2}`. The rebuilt URL
carries only `b=2`: the parameter `a=1` embedded in the path is dropped,
because `Object.entries` on a `URLSearchParams` yields no pairs, contradicting
the claim that both parameters appear with the URL-embedded ones first. -/
theorem requestURL_drops_path_params :
    (Postmark.exampleClient.requestURL "/x?a=1" [("b", "2")]).search = [("b", "2")]
    ∧ (Postmark.exampleClient.requestURL "/x?a=1" [("b", "2")]).href
        = "https://api.example.com/x?b=2"
    ∧ (newURL "/x?a=1" "https://api.example.com").search = [("a", "1")] := by
  refine ⟨rfl, ?_, by decide⟩
  decide

/-- C2: the record passed to `fetch` is built from url, method, headers and the
abort signal only — two request specs that differ only in their body produce
the same fetch arguments, and the same final `Result` for every outcome of the
network call. -/
theorem fetch_ignores_body (c : WebFetch) (url : String) (m : HttpMethod)
    (hs : HeadersModel) (ps : List (String × String)) (d₁ d₂ : JsVal)
    (outcome : FetchOutcome) :
    c.fetchArgs { url := url, method := m, data := d₁, headers := hs, params := ps }
      = c.fetchArgs { url := url, method := m, data := d₂, headers := hs, params := ps }
    ∧ (c.fetchArgs { url := url, method := m, data := d₁, headers := hs, params := ps }).signalAttached = true
    ∧ c.request { url := url, method := m, data := d₁, headers := hs, params := ps } outcome
      = c.request { url := url, method := m, data := d₂, headers := hs, params := ps } outcome :=
  ⟨rfl, rfl, rfl⟩

/-- C3: for every executor, spec and outcome of the underlying network call —
rejection, abort, parse failure or a received response — the promise returned
by `request` settles with `Except.ok` carrying a tagged `Result`; no exception
raised inside the try body escapes past the catch clause. -/
theorem request_always_results (c : WebFetch) (spec : RequestSpec)
    (outcome : FetchOutcome) :
    c.requestPromise spec outcome = .ok (c.request spec outcome) := by
  unfold WebFetch.requestPromise WebFetch.request
  cases c.tryBlock outcome <;> rfl

/-- C4: for a received response with a parseable body, `httpRequest` resolves
with the `data` field of the parsed body when the status passes the validation
predicate, and throws a `PostmarkError` whose `httpStatus` equals the status
when it fails the predicate. -/
theorem httpRequest_unwrap_or_throw (s : WebFetchHTTPClient) (m : HttpMethod)
    (path : String) (q : List (String × String)) (body : JsVal)
    (hs : HeadersModel) (status : Nat) (b : JsonBody) :
    (s.client.validateStatus status = true →
      s.httpRequest m path q body hs (.resolves status (.ok b)) = .ok b.data)
    ∧ (s.client.validateStatus status = false →
      s.httpRequest m path q body hs (.resolves status (.ok b))
        = .error { message := "Request failed"
                   errorCode := jsNumericCodeArg b.ErrorCode
                   httpStatus := some status }) := by
  constructor <;> intro h <;>
    simp [WebFetchHTTPClient.httpRequest, WebFetch.request, WebFetch.tryBlock, h]

/-- Witness for C4 at concrete inputs: a 200 response unwraps the data field, a
404 response is thrown as an error carrying status 404. -/
theorem httpRequest_unwrap_or_throw_witness :
    Postmark.freshState.httpRequest .GET "/x" [] .null []
        (.resolves 200 (.ok { data := .str "v", ErrorCode := .undef })) = .ok (.str "v")
    ∧ Postmark.freshState.httpRequest .GET "/x" [] .null []
        (.resolves 404 (.ok { data := .str "v", ErrorCode := .undef }))
        = .error { message := "Request failed", errorCode := none, httpStatus := some 404 } :=
  ⟨(httpRequest_unwrap_or_throw Postmark.freshState .GET "/x" [] .null [] 200
      { data := .str "v", ErrorCode := .undef }).1 rfl,
   (httpRequest_unwrap_or_throw Postmark.freshState .GET "/x" [] .null [] 404
      { data := .str "v", ErrorCode := .undef }).2 rfl⟩

/-- C5 counterexample: initialising with a configuration whose status predicate
rejects everything still yields an executor judging status 250 a success — the
supplied predicate does not replace the one hardcoded at the construction
site, so a caller-supplied predicate does not replace the default. -/
theorem validateStatus_option_ignored :
    (initHttpClient (some Postmark.rejectAll) Postmark.blankState).client.validateStatus 250 = true
    ∧ (fun _ : Nat => false) 250 = false :=
  ⟨rfl, rfl⟩

/-- C5 amended: the executor built by `initHttpClient` always carries the
literal predicate success iff the status lies in [200, 300), whatever
configuration is supplied; the configuration cannot replace it. -/
theorem validateStatus_hardcoded (configOptions : Option Configuration)
    (s : WebFetchHTTPClient) (status : Nat) :
    (initHttpClient configOptions s).client.validateStatus status
      = (200 ≤ status && status < 300) :=
  rfl

/-- C6: when the validation predicate rejects the status of a received,
parseable response, the failure carries the fixed message, the response status,
and an error code exactly when the body field `ErrorCode` is numeric — a
numeric field is kept, a string or absent field yields no code. -/
theorem failure_error_shape (c : WebFetch) (spec : RequestSpec) (status : Nat)
    (b : JsonBody) (hfail : c.validateStatus status = false) :
    c.request spec (.resolves status (.ok b))
      = .failure { message := "Request failed"
                   errorCode := jsNumericCodeArg b.ErrorCode
                   httpStatus := some status }
    ∧ (∀ n : Int, b.ErrorCode = .num n → jsNumericCodeArg b.ErrorCode = some n)
    ∧ (∀ t : String, b.ErrorCode = .str t → jsNumericCodeArg b.ErrorCode = none)
    ∧ (b.ErrorCode = .undef → jsNumericCodeArg b.ErrorCode = none) := by
  refine ⟨?_, ?_, ?_, ?_⟩
  · simp [WebFetch.request, WebFetch.tryBlock, hfail]
  · intro n hn; simp [hn, jsNumericCodeArg]
  · intro t ht; simp [ht, jsNumericCodeArg]
  · intro h0; simp [h0, jsNumericCodeArg]

/-- Witness for C6: a rejected 422 response whose body carries
`ErrorCode: 300` produces the failure with error code 300 and status 422. -/
theorem failure_error_shape_witness :
    Postmark.exampleClient.request
        { url := "/x", method := .GET, data := .null, headers := [], params := [] }
        (.resolves 422 (.ok { data := .null, ErrorCode := .num 300 }))
      = .failure { message := "Request failed", errorCode := some 300, httpStatus := some 422 } :=
  (failure_error_shape Postmark.exampleClient
    { url := "/x", method := .GET, data := .null, headers := [], params := [] }
    422 { data := .null, ErrorCode := .num 300 } rfl).1

/-- C7 counterexample: a transport failure before the timer fires — `fetch`
rejects, the catch clause produces the failure `Result`, a final outcome is
chosen — yet the timer is not cleared, because the catch path contains no
`clearTimeout`. -/
theorem timer_not_cleared_on_reject :
    WebFetch.timerCleared (.rejects "connection refused") = false
    ∧ Postmark.exampleClient.request
        { url := "/x", method := .GET, data := .null, headers := [], params := [] }
        (.rejects "connection refused")
      = .failure { message := "connection refused" } :=
  ⟨rfl, rfl⟩

/-- C7 amended: the timer is cleared exactly on the paths where `fetch`
resolves — success, validation failure, and a parse failure after the response
arrived; when `fetch` itself rejects (transport failure or the abort of the
timer itself), the catch path leaves the timer untouched. -/
theorem timer_cleared_iff_fetch_resolved (status : Nat) (json : JsonOutcome)
    (msg : String) :
    WebFetch.timerCleared (.resolves status json) = true
    ∧ WebFetch.timerCleared (.rejects msg) = false :=
  ⟨rfl, rfl⟩

/-- C8 counterexample: when the caller already supplies a `Content-Type`
header, the executor still appends `application/json` — the header list passed
to `fetch` holds two `Content-Type` entries, where the claim says the append
happens only if the caller supplied none. -/
theorem contentType_appended_when_present :
    (Postmark.exampleClient.fetchArgs
        { url := "/x", method := .POST, data := .null
          headers := [("Content-Type", "text/plain")], params := [] }).headers
      = [("Content-Type", "text/plain"), ("Content-Type", "application/json")]
    ∧ countHeader (Postmark.exampleClient.fetchArgs
        { url := "/x", method := .POST, data := .null
          headers := [("Content-Type", "text/plain")], params := [] }).headers
        "Content-Type" = 2 := by
  constructor
  · rfl
  · decide

/-- C8 amended: `Content-Type: application/json` is appended on every call,
whether or not the caller already supplied one; the caller headers are
preserved unchanged as a prefix, so none is discarded and the appended header
is always present. -/
theorem contentType_always_appended (c : WebFetch) (spec : RequestSpec) :
    (c.fetchArgs spec).headers = spec.headers ++ [("Content-Type", "application/json")] :=
  rfl

/-- C9: `initHttpClient` builds the replacement executor from the merged
configuration alone — two states reinitialised with the same options get equal
executors — and every subsequent request URL originates at the newly resolved
base URL, while an in-flight call completes against the executor instance
captured when it was issued, whose base URL is the one from before the
re-initialisation. -/
theorem reinit_replaces_executor (c : Option Configuration)
    (s₁ s₂ : WebFetchHTTPClient) (spec : RequestSpec) (outcome : FetchOutcome) :
    (initHttpClient c s₁).client = (initHttpClient c s₂).client
    ∧ ((initHttpClient c s₁).client.requestURL spec.url spec.params).origin
        = getBaseHttpRequestURL (mergeConfiguration DefaultOptions c)
    ∧ (issueCall s₁ spec).complete outcome = s₁.client.request spec outcome
    ∧ (issueCall s₁ spec).executor.baseURL = s₁.client.baseURL := by
  refine ⟨rfl, ?_, rfl, rfl⟩
  simpa [WebFetch.requestURL, addSearchParams, initHttpClient] using
    newURL_origin spec.url (getBaseHttpRequestURL (mergeConfiguration DefaultOptions c))

/-- C10 counterexample: a configured timeout of 0 seconds yields a timer
duration of 60000 milliseconds, not the 0 that seconds times 1000 would give —
the JavaScript falsy-or default treats 0 like an unset option. -/
theorem timeout_zero_defaults :
    getRequestTimeoutInMilliseconds { timeout := some 0 } = 60000
    ∧ ((0 : Int) * 1000 = 0 ∧ (60000 : Int) ≠ 0) := by
  refine ⟨rfl, by norm_num⟩

/-- C10 amended: the timer duration in milliseconds equals the configured
timeout in seconds times 1000 for every nonzero configured value, and equals
60000 when the option is unset or set to the falsy 0; the executor built by
`initHttpClient` hands exactly this value to `setTimeout`. -/
theorem timeout_milliseconds (opts : Configuration) (t : Int) :
    (opts.timeout = some t → t ≠ 0 → getRequestTimeoutInMilliseconds opts = t * 1000)
    ∧ (opts.timeout = none → getRequestTimeoutInMilliseconds opts = 60 * 1000)
    ∧ (opts.timeout = some 0 → getRequestTimeoutInMilliseconds opts = 60 * 1000)
    ∧ (∀ c s, (initHttpClient c s).client.timerDurationMs
        = getRequestTimeoutInMilliseconds (mergeConfiguration DefaultOptions c)) := by
  refine ⟨?_, ?_, ?_, fun c s => rfl⟩
  · intro h hz
    simp [getRequestTimeoutInMilliseconds, jsOrNum, h, hz]
  · intro h
    simp [getRequestTimeoutInMilliseconds, jsOrNum, h]
  · intro h
    simp [getRequestTimeoutInMilliseconds, jsOrNum, h]

/-- Witness for C10 at a concrete input: a 7-second timeout yields 7000
milliseconds. -/
theorem timeout_milliseconds_witness :
    getRequestTimeoutInMilliseconds { timeout := some 7 } = 7 * 1000 :=
  (timeout_milliseconds { timeout := some 7 } 7).1 rfl (by norm_num)

end Postmark
